import Mathlib

/-!
Verification of the TrashTV production-hub dashboard (src/index.tsx).

The relevant fragments of the program are embedded shallowly:

* JavaScript strings become `String`; a possibly-missing string field (a
  property that may be `undefined`) becomes `Option String`, and the
  JavaScript coercion `x || d` on strings becomes `jsOr` below (both the
  empty string and `undefined` are falsy).
* A date string is compared through `new Date(s).getTime()`; the embedding
  abstracts that external parse as an arbitrary valuation
  `val : String → Int` and quantifies over it.  A missing or empty
  `dueDate` compares as `Infinity`: the key type is `Option Int` with
  `none` greatest (`keyLe`).
* `Array.prototype.sort` with a comparator whose induced relation is a
  total preorder is, per the ECMAScript specification, a stable sort, so
  it is embedded as `List.insertionSort` over that relation.  (For two
  tasks without a due date the comparator computes `Infinity - Infinity`,
  i.e. `NaN`, which sort treats as `0`: the two compare equal, matching
  `keyLe none none = true`.)
* Network calls are embedded by making their outcome an explicit
  parameter (success, or the error object delivered to the `catch`) and
  returning the resulting component state together with the list of API
  calls the handler issued.
-/

namespace TrashTV

/-- JavaScript `a || b` specialised to strings: the empty string (and a
missing property, embedded as the empty string via `Option.getD`) is
falsy. -/
def jsOr (a b : String) : String := if a = "" then b else a

/-- A top-level task of the hub view (the `tasks` state of `App`). -/
structure Task where
  name : String
  priority : String
  assignee : String
  status : String
  startDate : Option String
  dueDate : Option String
  notes : Option String
deriving DecidableEq, Repr

/-- The sort key of a task: `a.dueDate ? new Date(a.dueDate+'T00:00:00').getTime() : Infinity`,
with the external date parse abstracted as `val` and `Infinity` as `none`. -/
def dueKey (val : String → Int) (t : Task) : Option Int :=
  match t.dueDate with
  | none => none
  | some s => if s = "" then none else some (val s)

/-- Comparison of sort keys, `none` acting as `+Infinity`.  `keyLe a b`
holds exactly when the JavaScript comparator returns a value `≤ 0` on the
corresponding tasks (`Infinity - Infinity` is `NaN`, which sort treats as
`0`, hence `keyLe none none = true`). -/
def keyLe : Option Int → Option Int → Bool
  | _, none => true
  | none, some _ => false
  | some x, some y => decide (x ≤ y)

/-- The relation induced by the task-list comparator
`(a, b) => dateA - dateB`. -/
def taskLe (val : String → Int) (a b : Task) : Prop :=
  keyLe (dueKey val a) (dueKey val b) = true

instance (val : String → Int) : DecidableRel (taskLe val) :=
  fun _ _ => instDecidableEqBool _ _

theorem keyLe_refl (x : Option Int) : keyLe x x = true := by
  cases x with
  | none => rfl
  | some v => simp [keyLe]

theorem keyLe_total (x y : Option Int) : keyLe x y = true ∨ keyLe y x = true := by
  cases x with
  | none =>
    cases y with
    | none => left; rfl
    | some v => right; rfl
  | some u =>
    cases y with
    | none => left; rfl
    | some v =>
      simp only [keyLe, decide_eq_true_eq]
      omega

theorem keyLe_trans {x y z : Option Int} (h₁ : keyLe x y = true) (h₂ : keyLe y z = true) :
    keyLe x z = true := by
  cases z with
  | none => cases x <;> rfl
  | some w =>
    cases y with
    | none => simp [keyLe] at h₂
    | some v =>
      cases x with
      | none => simp [keyLe] at h₁
      | some u =>
        simp only [keyLe, decide_eq_true_eq] at h₁ h₂ ⊢
        omega

instance (val : String → Int) : IsTotal Task (taskLe val) :=
  ⟨fun a b => keyLe_total (dueKey val a) (dueKey val b)⟩

instance (val : String → Int) : IsTrans Task (taskLe val) :=
  ⟨fun _ _ _ h₁ h₂ => keyLe_trans h₁ h₂⟩

/-- The active-filter predicate of the task list:
`activeFilter === 'all' || task.assignee === activeFilter`. -/
def matchesFilter (activeFilter : String) (t : Task) : Bool :=
  activeFilter == "all" || t.assignee == activeFilter

/-- The rendered task list:
`tasks.filter(task => activeFilter === 'all' || task.assignee === activeFilter).sort(comparator)`. -/
def renderedTaskList (val : String → Int) (tasks : List Task) (activeFilter : String) :
    List Task :=
  List.insertionSort (taskLe val) (tasks.filter (matchesFilter activeFilter))

theorem filter_orderedInsert_key {α : Type} (r : α → α → Prop) [DecidableRel r]
    (p : α → Bool) (hp : ∀ a b, p a = true → p b = true → r a b) (a : α) :
    ∀ l : List α, (List.orderedInsert r a l).filter p =
      if p a then a :: l.filter p else l.filter p
  | [] => by
    by_cases hpa : p a = true <;> simp [List.orderedInsert, List.filter, hpa]
  | b :: l => by
    rw [List.orderedInsert]
    by_cases hab : r a b
    · rw [if_pos hab]
      by_cases hpa : p a = true <;> simp [List.filter_cons, hpa]
    · rw [if_neg hab]
      by_cases hpb : p b = true
      · have hpa : ¬ p a = true := fun hpa => hab (hp a b hpa hpb)
        simp only [List.filter_cons, hpb, if_true, if_neg hpa,
          filter_orderedInsert_key r p hp a l, if_neg hpa]
      · simp only [List.filter_cons, if_neg hpb,
          filter_orderedInsert_key r p hp a l]

theorem filter_insertionSort_key {α : Type} (r : α → α → Prop) [DecidableRel r]
    (p : α → Bool) (hp : ∀ a b, p a = true → p b = true → r a b) :
    ∀ l : List α, (List.insertionSort r l).filter p = l.filter p
  | [] => rfl
  | b :: l => by
    rw [List.insertionSort, filter_orderedInsert_key r p hp,
      filter_insertionSort_key r p hp l]
    by_cases hpb : p b = true <;> simp [List.filter_cons, hpb]

/-- C1: for every task list and every active filter, the rendered list is
sorted non-decreasingly by the due-date key (`none`, i.e. no due date,
being greatest, so dateless tasks come after all dated ones), it is a
permutation of — and has the same members as — exactly the tasks matching
the filter (`"all"` matches every task, any other filter matches exactly
the tasks whose assignee equals it), and the sort is stable: restricted to
any fixed due-date key, the rendered list coincides with the filtered
list in original insertion order. -/
theorem c1_rendered_list_sorted_filtered_stable (val : String → Int)
    (tasks : List Task) (activeFilter : String) :
    List.Sorted (taskLe val) (renderedTaskList val tasks activeFilter) ∧
    (renderedTaskList val tasks activeFilter).Perm
      (tasks.filter (matchesFilter activeFilter)) ∧
    (∀ t : Task, t ∈ renderedTaskList val tasks activeFilter ↔
      t ∈ tasks ∧ (activeFilter = "all" ∨ t.assignee = activeFilter)) ∧
    (∀ k : Option Int,
      (renderedTaskList val tasks activeFilter).filter (fun t => dueKey val t == k) =
      (tasks.filter (matchesFilter activeFilter)).filter (fun t => dueKey val t == k)) := by
  refine ⟨List.sorted_insertionSort (taskLe val) _,
    List.perm_insertionSort (taskLe val) _, ?_, ?_⟩
  · intro t
    rw [renderedTaskList, (List.perm_insertionSort (taskLe val) _).mem_iff,
      List.mem_filter]
    simp [matchesFilter]
  · intro k
    refine filter_insertionSort_key (taskLe val) _ ?_ _
    intro a b ha hb
    rw [beq_iff_eq] at ha hb
    rw [taskLe, ha, hb]
    exact keyLe_refl k

/-- A sub-task of the project-detail view, as built by `fetchSheetData`. -/
structure SubTask where
  id : Nat
  status : String
  name : String
  assignee : String
  dueDate : String
deriving DecidableEq, Repr

/-- Cell `row[i]` of a fetched row; a missing cell of a short row reads as
`undefined`, which the `||` coercions treat like the empty string. -/
def cell (row : List String) (i : Nat) : String := row.getD i ""

/-- One element of the mapped row list of `fetchSheetData`:
`{ id: index + 2, status: row[2] || 'Todo', name: row[0] || '',
assignee: row[1] || '', dueDate: row[4] || '' }` (the read range starts at
sheet row 2). -/
def mkSubTask (index : Nat) (row : List String) : SubTask :=
  { id := index + 2
    status := jsOr (cell row 2) "Todo"
    name := jsOr (cell row 0) ""
    assignee := jsOr (cell row 1) ""
    dueDate := jsOr (cell row 4) "" }

/-- `values.map((row, index) => ...)` of `fetchSheetData`, with the
running index made explicit. -/
def mapRowsFrom (index : Nat) : List (List String) → List SubTask
  | [] => []
  | row :: rest => mkSubTask index row :: mapRowsFrom (index + 1) rest

/-- The sub-task list `fetchSheetData` stores: the fetched `values`
mapped with their index, then `.filter(t => t.name)`. -/
def subTasksFromValues (values : List (List String)) : List SubTask :=
  (mapRowsFrom 0 values).filter (fun t => t.name != "")

theorem jsOr_empty (s : String) : jsOr s "" = s := by
  rw [jsOr]; split <;> simp_all

theorem mem_mapRowsFrom (t : SubTask) :
    ∀ (n : Nat) (values : List (List String)),
      t ∈ mapRowsFrom n values ↔
        ∃ i row, values[i]? = some row ∧ t = mkSubTask (n + i) row
  | n, [] => by simp [mapRowsFrom]
  | n, row :: rest => by
    rw [mapRowsFrom]
    simp only [List.mem_cons, mem_mapRowsFrom t (n + 1) rest]
    constructor
    · rintro (h | ⟨i, r, hr, ht⟩)
      · exact ⟨0, row, by simp, by simpa using h⟩
      · refine ⟨i + 1, r, by simpa using hr, ?_⟩
        rw [ht]
        have harith : n + 1 + i = n + (i + 1) := by omega
        rw [harith]
    · rintro ⟨i, r, hr, ht⟩
      cases i with
      | zero =>
        left
        have hr0 : r = row := by
          simpa using hr.symm
        rw [ht, hr0]
        simp
      | succ j =>
        right
        refine ⟨j, r, by simpa using hr, ?_⟩
        rw [ht]
        have harith : n + (j + 1) = n + 1 + j := by omega
        rw [harith]

theorem length_filter_mapRowsFrom :
    ∀ (n : Nat) (values : List (List String)),
      ((mapRowsFrom n values).filter (fun t => t.name != "")).length =
        (values.filter (fun r => cell r 0 != "")).length
  | _, [] => rfl
  | n, row :: rest => by
    rw [mapRowsFrom, List.filter_cons, List.filter_cons]
    have hname : (mkSubTask n row).name = cell row 0 := jsOr_empty _
    rw [hname]
    cases hc : (cell row 0 != "") <;>
      simp [hc, length_filter_mapRowsFrom (n + 1) rest]

/-- C6: exactly the fetched rows whose first (name) cell is non-empty
become displayed sub-tasks — a row with an empty name cell is excluded,
every row with a non-empty name cell is included (witnessed by the
sub-task carrying that row's id), their count matches, and the spec's
example rows yield exactly one visible sub-task. -/
theorem c6_nonempty_name_rows_displayed (values : List (List String)) :
    (∀ (i : Nat) (row : List String), values[i]? = some row →
      (cell row 0 ≠ "" ↔ ∃ t ∈ subTasksFromValues values, t.id = i + 2)) ∧
    (subTasksFromValues values).length =
      (values.filter (fun r => cell r 0 != "")).length ∧
    subTasksFromValues [["", "x", "Todo"], ["Buy props", "A", "Done"]] =
      [{ id := 3, status := "Done", name := "Buy props", assignee := "A", dueDate := "" }] := by
  refine ⟨?_, length_filter_mapRowsFrom 0 values, by decide⟩
  intro i row hrow
  constructor
  · intro hname
    refine ⟨mkSubTask i row, List.mem_filter.2 ⟨?_, ?_⟩, rfl⟩
    · exact (mem_mapRowsFrom _ 0 values).2 ⟨i, row, hrow, by simp⟩
    · have h : (mkSubTask i row).name = cell row 0 := jsOr_empty _
      rw [h]
      exact bne_iff_ne.2 hname
  · rintro ⟨t, htmem, hid⟩
    obtain ⟨hmap, hnm⟩ := List.mem_filter.1 htmem
    obtain ⟨j, r, hr, ht⟩ := (mem_mapRowsFrom t 0 values).1 hmap
    have hji : j = i := by
      have : t.id = j + 2 := by rw [ht]; simp [mkSubTask]
      omega
    subst hji
    have hrrow : r = row := by
      rw [hrow] at hr
      exact (Option.some.inj hr).symm
    subst hrrow
    have h : t.name = cell r 0 := by
      rw [ht]
      simpa [mkSubTask] using jsOr_empty (cell r 0)
    rw [h] at hnm
    exact bne_iff_ne.1 hnm

/-- C10: every displayed sub-task's id is 2 plus the zero-based index of
the fetched row it was built from (its absolute sheet row number), the
sub-task is exactly the one read from that row, and filtering out
empty-name rows does not renumber the rest: on the spec's example rows
the single surviving sub-task keeps id 3. -/
theorem c10_id_addresses_source_row (values : List (List String)) (t : SubTask)
    (ht : t ∈ subTasksFromValues values) :
    2 ≤ t.id ∧
    (∃ row, values[t.id - 2]? = some row ∧ t = mkSubTask (t.id - 2) row ∧ cell row 0 ≠ "") ∧
    (subTasksFromValues [["", "x", "Todo"], ["Buy props", "A", "Done"]]).map
      (fun u => u.id) = [3] := by
  obtain ⟨hmap, hnm⟩ := List.mem_filter.1 ht
  obtain ⟨j, r, hr, htj⟩ := (mem_mapRowsFrom t 0 values).1 hmap
  have hid : t.id = j + 2 := by rw [htj]; simp [mkSubTask]
  have hname : t.name = cell r 0 := by
    rw [htj]
    simpa [mkSubTask] using jsOr_empty (cell r 0)
  refine ⟨by omega, ⟨r, ?_, ?_, ?_⟩, by decide⟩
  · have : t.id - 2 = j := by omega
    rw [this]
    simpa using hr
  · have : t.id - 2 = j := by omega
    rw [this, htj]
    simp
  · rw [← hname]
    exact bne_iff_ne.1 hnm

theorem c10_id_addresses_source_row_witness :
    (2 ≤ 3 ∧
      (∃ row, [["", "x", "Todo"], ["Buy props", "A", "Done"]][(3 : Nat) - 2]? = some row ∧
        ({ id := 3, status := "Done", name := "Buy props", assignee := "A",
           dueDate := "" } : SubTask) = mkSubTask (3 - 2) row ∧ cell row 0 ≠ "") ∧
      (subTasksFromValues [["", "x", "Todo"], ["Buy props", "A", "Done"]]).map
        (fun u => u.id) = [3]) :=
  c10_id_addresses_source_row [["", "x", "Todo"], ["Buy props", "A", "Done"]]
    { id := 3, status := "Done", name := "Buy props", assignee := "A", dueDate := "" }
    (by decide)

/-- The status `handleStatusChange` writes for a checkbox state:
`const newStatus = isChecked ? 'Done' : 'In Progress'`. -/
def statusAfterChange (isChecked : Bool) : String :=
  if isChecked then "Done" else "In Progress"

/-- A user toggle of the done checkbox: the checkbox renders
`checked = (st.status === 'Done')`, so the change event delivers
`isChecked = !(status === 'Done')` to `handleStatusChange`, which stores
`statusAfterChange isChecked`. -/
def toggleDone (status : String) : String :=
  statusAfterChange (!(status == "Done"))

/-- C2 counterexample: a sub-task whose initial status is `"Todo"` does
not round-trip under two toggles — the first toggle checks the box
(status becomes `"Done"`), the second unchecks it, and the status lands
on `"In Progress"`, not `"Todo"`. -/
theorem c2_todo_does_not_roundtrip :
    toggleDone "Todo" = "Done" ∧
    toggleDone (toggleDone "Todo") = "In Progress" ∧
    toggleDone (toggleDone "Todo") ≠ "Todo" := by decide

/-- C2 (amended): checking the done checkbox sets the status to `"Done"`
and unchecking it sets `"In Progress"`, so toggling twice restores the
original status string exactly when that status is `"In Progress"` or
`"Done"`; an initial `"Todo"` lands on `"In Progress"` instead. -/
theorem c2_toggle_roundtrip (s : String) (h : s = "In Progress" ∨ s = "Done") :
    toggleDone (toggleDone s) = s ∧
    statusAfterChange true = "Done" ∧
    statusAfterChange false = "In Progress" ∧
    toggleDone (toggleDone "Todo") = "In Progress" := by
  rcases h with h | h <;> subst h <;> exact ⟨by decide, rfl, rfl, by decide⟩

theorem c2_toggle_roundtrip_witness :
    (("Done" : String) = "In Progress" ∨ ("Done" : String) = "Done") ∧
    toggleDone (toggleDone "Done") = "Done" :=
  ⟨Or.inr rfl, (c2_toggle_roundtrip "Done" (Or.inr rfl)).1⟩

/-- A single-cell write issued through `handleUpdateSheet`: the update of
range `'task.name'!{column}{rowId}` with payload `values: [[value]]`. -/
structure CellWrite where
  column : String
  rowId : Nat
  value : String
deriving DecidableEq, Repr

/-- Result of a row-level edit handler: the sub-task list after it ran,
the single-cell writes it issued, and whether the save-failure alert
fired. -/
structure EditResult where
  subTasks : List SubTask
  writes : List CellWrite
  alerted : Bool
deriving DecidableEq, Repr

/-- `handleStatusChange`: maps the new status over the local list
(`setSubTasks(updatedSubTasks)` runs before the write resolves), then
calls `handleUpdateSheet(subTask.id, 'C', newStatus)`, whose `catch` only
alerts — it neither retries nor restores the previous list.  The write
outcome is the explicit parameter `writeSucceeds`. -/
def handleStatusChange (subTasks : List SubTask) (subTask : SubTask) (isChecked : Bool)
    (writeSucceeds : Bool) : EditResult :=
  let newStatus := statusAfterChange isChecked
  let updatedSubTasks := subTasks.map fun st =>
    if st.id == subTask.id then { st with status := newStatus } else st
  { subTasks := updatedSubTasks
    writes := [{ column := "C", rowId := subTask.id, value := newStatus }]
    alerted := !writeSucceeds }

/-- `handleNameChange`: same shape as `handleStatusChange`, writing the
new name to column `'A'` of the row. -/
def handleNameChange (subTasks : List SubTask) (subTask : SubTask) (newName : String)
    (writeSucceeds : Bool) : EditResult :=
  let updatedSubTasks := subTasks.map fun st =>
    if st.id == subTask.id then { st with name := newName } else st
  { subTasks := updatedSubTasks
    writes := [{ column := "A", rowId := subTask.id, value := newName }]
    alerted := !writeSucceeds }

/-- C9: a row-level edit (status toggle or name edit) updates the local
sub-task list immediately, issues exactly one single-cell write for the
change, and a failed write is only reported (the alert flag) — the
optimistically updated list is identical whether the write succeeds or
fails, i.e. nothing is rolled back and nothing is retried. -/
theorem c9_optimistic_edit_single_write (subTasks : List SubTask) (subTask : SubTask)
    (isChecked : Bool) (newName : String) (writeSucceeds : Bool) :
    (handleStatusChange subTasks subTask isChecked writeSucceeds).subTasks =
      (subTasks.map fun st => if st.id == subTask.id
        then { st with status := statusAfterChange isChecked } else st) ∧
    (handleStatusChange subTasks subTask isChecked writeSucceeds).writes =
      [{ column := "C", rowId := subTask.id, value := statusAfterChange isChecked }] ∧
    (handleStatusChange subTasks subTask isChecked false).subTasks =
      (handleStatusChange subTasks subTask isChecked true).subTasks ∧
    (handleStatusChange subTasks subTask isChecked writeSucceeds).alerted = !writeSucceeds ∧
    (handleNameChange subTasks subTask newName writeSucceeds).subTasks =
      (subTasks.map fun st => if st.id == subTask.id
        then { st with name := newName } else st) ∧
    (handleNameChange subTasks subTask newName writeSucceeds).writes =
      [{ column := "A", rowId := subTask.id, value := newName }] ∧
    (handleNameChange subTasks subTask newName false).subTasks =
      (handleNameChange subTasks subTask newName true).subTasks ∧
    (handleNameChange subTasks subTask newName writeSucceeds).alerted = !writeSucceeds :=
  ⟨rfl, rfl, rfl, rfl, rfl, rfl, rfl, rfl⟩

/-- An AI-generated sub-task suggestion as held in `suggestedSubTasks`
(`{ ...t, id: 'gen-'+index }`); the `name`, `assignee` and `dueDate`
properties come from parsed JSON and may be absent. -/
structure Suggestion where
  id : String
  name : Option String
  assignee : Option String
  dueDate : Option String
deriving DecidableEq, Repr

/-- One `spreadsheets.values.append` call: the batched rows of its
payload. -/
structure AppendCall where
  rows : List (List String)
deriving DecidableEq, Repr

/-- The component state touched by `handleAddSelectedSubTasks`.  The
JavaScript `Set` of selected ids is embedded as the list of its
members. -/
structure SuggestState where
  aiGoalInput : String
  suggestedSubTasks : List Suggestion
  selectedSubTasks : List String
deriving DecidableEq, Repr

/-- `suggestedSubTasks.filter(t => selectedSubTasks.has(t.id))`. -/
def tasksToAdd (s : SuggestState) : List Suggestion :=
  s.suggestedSubTasks.filter fun t => s.selectedSubTasks.contains t.id

/-- The row built for one selected suggestion:
`[t.name || '', t.assignee || '', 'Todo', '', t.dueDate || '']`. -/
def suggestionRow (t : Suggestion) : List String :=
  [t.name.getD "", t.assignee.getD "", "Todo", "", t.dueDate.getD ""]

/-- `handleAddSelectedSubTasks`: returns early with no call when nothing
is selected; otherwise issues one append whose payload maps the selected
suggestions through `suggestionRow`, and on success clears the goal
input, the suggestion set and the selection set (on failure the `catch`
only alerts and the state is left as it was). -/
def handleAddSelectedSubTasks (s : SuggestState) (appendSucceeds : Bool) :
    SuggestState × List AppendCall × Bool :=
  if (tasksToAdd s).length = 0 then (s, [], false)
  else
    let newRows := (tasksToAdd s).map suggestionRow
    if appendSucceeds then
      ({ aiGoalInput := "", suggestedSubTasks := [], selectedSubTasks := [] },
        [{ rows := newRows }], false)
    else
      (s, [{ rows := newRows }], true)

/-- C3: committing a selection issues exactly one append call whose
payload has one row per selected suggestion in suggestion-list order,
each row carrying status `"Todo"` in its third column; on success the
suggestion set and the selection set are emptied, and with zero selected
suggestions no append call is issued. -/
theorem c3_commit_one_batched_append (s : SuggestState) (appendSucceeds : Bool) :
    (tasksToAdd s = [] →
      (handleAddSelectedSubTasks s appendSucceeds).2.1 = [] ∧
      (handleAddSelectedSubTasks s appendSucceeds).1 = s) ∧
    (tasksToAdd s ≠ [] →
      (handleAddSelectedSubTasks s appendSucceeds).2.1 =
        [{ rows := (tasksToAdd s).map suggestionRow }] ∧
      ((handleAddSelectedSubTasks s appendSucceeds).2.1.map fun c => c.rows.length) =
        [(tasksToAdd s).length] ∧
      (∀ r ∈ ((handleAddSelectedSubTasks s appendSucceeds).2.1.map fun c => c.rows).flatten,
        cell r 2 = "Todo") ∧
      (appendSucceeds = true →
        (handleAddSelectedSubTasks s appendSucceeds).1.suggestedSubTasks = [] ∧
        (handleAddSelectedSubTasks s appendSucceeds).1.selectedSubTasks = [])) := by
  constructor
  · intro h
    rw [handleAddSelectedSubTasks, if_pos (by rw [h]; rfl)]
    exact ⟨rfl, rfl⟩
  · intro h
    have hlen : ¬ (tasksToAdd s).length = 0 := by
      simpa [List.length_eq_zero] using h
    rw [handleAddSelectedSubTasks, if_neg hlen]
    cases appendSucceeds with
    | false =>
      refine ⟨rfl, by simp, ?_, by intro hc; cases hc⟩
      intro r hr
      simp only [List.map_cons, List.map_nil, List.flatten, List.append_nil,
        List.mem_map] at hr
      obtain ⟨t, _, hrt⟩ := hr
      rw [← hrt]
      rfl
    | true =>
      refine ⟨rfl, by simp, ?_, fun _ => ⟨rfl, rfl⟩⟩
      intro r hr
      simp only [List.map_cons, List.map_nil, List.flatten, List.append_nil,
        List.mem_map] at hr
      obtain ⟨t, _, hrt⟩ := hr
      rw [← hrt]
      rfl

/-- A concrete suggestion state: one suggestion, selected. -/
def c3ExampleState : SuggestState :=
  { aiGoalInput := "plan the shoot"
    suggestedSubTasks :=
      [{ id := "gen-0", name := some "Book studio", assignee := some "Producer",
         dueDate := some "2025-11-01" }]
    selectedSubTasks := ["gen-0"] }

theorem c3_commit_one_batched_append_witness :
    tasksToAdd c3ExampleState ≠ [] ∧
    (handleAddSelectedSubTasks c3ExampleState true).2.1 =
      [{ rows := (tasksToAdd c3ExampleState).map suggestionRow }] ∧
    (handleAddSelectedSubTasks c3ExampleState true).1.suggestedSubTasks = [] ∧
    (handleAddSelectedSubTasks c3ExampleState true).1.selectedSubTasks = [] :=
  have h : tasksToAdd c3ExampleState ≠ [] := by decide
  have hmain := (c3_commit_one_batched_append c3ExampleState true).2 h
  ⟨h, hmain.1, (hmain.2.2.2 rfl).1, (hmain.2.2.2 rfl).2⟩

/-- A selected suggestion whose name is the empty string. -/
def c4EmptyNameState : SuggestState :=
  { aiGoalInput := "plan the shoot"
    suggestedSubTasks := [{ id := "gen-0", name := some "", assignee := none, dueDate := none }]
    selectedSubTasks := ["gen-0"] }

/-- C4 counterexample: committing a selected suggestion whose name is
empty does append a row, and that row's first (name) column is the empty
string — the commit path never checks the name, so an empty-name
suggestion is committable. -/
theorem c4_empty_name_suggestion_committed :
    (handleAddSelectedSubTasks c4EmptyNameState true).2.1 =
      [{ rows := [["", "", "Todo", "", ""]] }] ∧
    ∃ c ∈ (handleAddSelectedSubTasks c4EmptyNameState true).2.1,
      ∃ r ∈ c.rows, cell r 0 = "" := by decide

/-- C4 (amended): the commit writes one row for every selected suggestion
regardless of its name; the first column of each appended row is the
suggestion's name verbatim (a missing name coerced to the empty string),
so the non-empty-name restriction is not enforced at commit time. -/
theorem c4_committed_first_columns_are_names (s : SuggestState) (appendSucceeds : Bool)
    (c : AppendCall) (hc : c ∈ (handleAddSelectedSubTasks s appendSucceeds).2.1) :
    c.rows = (tasksToAdd s).map suggestionRow ∧
    (c.rows.map fun r => cell r 0) = (tasksToAdd s).map fun t => t.name.getD "" := by
  have hrows : c.rows = (tasksToAdd s).map suggestionRow := by
    rw [handleAddSelectedSubTasks] at hc
    by_cases h0 : (tasksToAdd s).length = 0
    · rw [if_pos h0] at hc
      cases hc
    · rw [if_neg h0] at hc
      cases appendSucceeds <;>
        simpa using congrArg AppendCall.rows (List.mem_singleton.1 hc)
  refine ⟨hrows, ?_⟩
  rw [hrows, List.map_map]
  refine List.map_congr_left ?_
  intro t _
  rfl

theorem c4_committed_first_columns_are_names_witness :
    ({ rows := [["", "", "Todo", "", ""]] } : AppendCall) ∈
      (handleAddSelectedSubTasks c4EmptyNameState true).2.1 ∧
    (({ rows := [["", "", "Todo", "", ""]] } : AppendCall).rows.map fun r => cell r 0) =
      (tasksToAdd c4EmptyNameState).map fun t => t.name.getD "" :=
  have h : ({ rows := [["", "", "Todo", "", ""]] } : AppendCall) ∈
      (handleAddSelectedSubTasks c4EmptyNameState true).2.1 := by decide
  ⟨h, (c4_committed_first_columns_are_names c4EmptyNameState true _ h).2⟩

/-- The parsed JSON object of the single-task extraction in
`handleAddTask`; any field may be absent from the AI response. -/
structure ParsedTask where
  name : Option String
  assignee : Option String
  dueDate : Option String
  priority : Option String
  notes : Option String
deriving DecidableEq, Repr

/-- JavaScript truthiness of a possibly-missing string field: `undefined`
and the empty string are falsy. -/
def truthy (o : Option String) : Bool := !(o.getD "" == "")

/-- The task appended by `handleAddTask` on acceptance:
`{ ...newTaskData, status: 'Todo', startDate: null }` (a field missing
from the parsed object spreads as `undefined`, read here as the empty
string where the `Task` field is a plain string). -/
def mkHubTask (d : ParsedTask) : Task :=
  { name := d.name.getD ""
    priority := d.priority.getD ""
    assignee := d.assignee.getD ""
    status := "Todo"
    startDate := none
    dueDate := d.dueDate
    notes := d.notes }

/-- The single generic message of `handleAddTask`'s `catch`. -/
def addTaskErrorMessage : String :=
  "Sorry, I couldn't understand that. Please try rephrasing your request."

/-- `handleAddTask` after the AI call returns: `parsed` is `some` of the
decoded JSON when the request and `JSON.parse` succeeded, `none` when
either failed.  The handler accepts when
`newTaskData.name && newTaskData.assignee && newTaskData.dueDate` and
appends the task; otherwise it throws, and the `catch` sets the generic
message.  Result: the new task list and the error state. -/
def handleAddTask (tasks : List Task) (parsed : Option ParsedTask) :
    List Task × Option String :=
  match parsed with
  | none => (tasks, some addTaskErrorMessage)
  | some d =>
    if truthy d.name && truthy d.assignee && truthy d.dueDate then
      (tasks ++ [mkHubTask d], none)
    else
      (tasks, some addTaskErrorMessage)

/-- A parsed response with the three checked fields present but no
priority. -/
def c5NoPriority : ParsedTask :=
  { name := some "Edit sizzle reel", assignee := some "Jess", dueDate := some "2025-11-07",
    priority := none, notes := none }

/-- C5 counterexample: a parsed response whose `priority` field is absent
(one of the claim's four required fields) is still accepted — the task is
appended and no error is shown, because the code checks only `name`,
`assignee` and `dueDate`. -/
theorem c5_missing_priority_still_accepted :
    truthy c5NoPriority.priority = false ∧
    (handleAddTask [] (some c5NoPriority)).1 = [mkHubTask c5NoPriority] ∧
    (handleAddTask [] (some c5NoPriority)).2 = none := by decide

/-- C5 (amended): the handler validates only `name`, `assignee` and
`dueDate` (present and non-empty) — `priority`, though declared required
in the schema sent to the model, is not checked locally.  A task is
appended exactly when those three are truthy; in every other case
(including a response that fails to parse) the single generic message is
shown and the task list is unchanged. -/
theorem c5_three_fields_validated (tasks : List Task) (parsed : Option ParsedTask) :
    ((handleAddTask tasks parsed).2 = none ↔
      ∃ d, parsed = some d ∧ truthy d.name = true ∧ truthy d.assignee = true ∧
        truthy d.dueDate = true) ∧
    (∀ d, parsed = some d →
      truthy d.name = true → truthy d.assignee = true → truthy d.dueDate = true →
      handleAddTask tasks parsed = (tasks ++ [mkHubTask d], none)) ∧
    ((handleAddTask tasks parsed).2 ≠ none →
      handleAddTask tasks parsed = (tasks, some addTaskErrorMessage)) := by
  refine ⟨?_, ?_, ?_⟩
  · constructor
    · intro h
      cases parsed with
      | none => simp [handleAddTask, addTaskErrorMessage] at h
      | some d =>
        rw [handleAddTask] at h
        by_cases hv : truthy d.name && truthy d.assignee && truthy d.dueDate
        · obtain ⟨⟨h1, h2⟩, h3⟩ := by simpa [Bool.and_eq_true] using hv
          exact ⟨d, rfl, h1, h2, h3⟩
        · rw [if_neg hv] at h
          simp at h
    · rintro ⟨d, hd, h1, h2, h3⟩
      subst hd
      rw [handleAddTask, if_pos (by simp [h1, h2, h3])]
  · rintro d rfl h1 h2 h3
    rw [handleAddTask, if_pos (by simp [h1, h2, h3])]
  · intro h
    cases parsed with
    | none => rfl
    | some d =>
      rw [handleAddTask] at h ⊢
      by_cases hv : truthy d.name && truthy d.assignee && truthy d.dueDate
      · rw [if_pos hv] at h
        simp at h
      · rw [if_neg hv]

/-- A fully populated parsed response. -/
def c5Complete : ParsedTask :=
  { name := some "Edit sizzle reel", assignee := some "Jess", dueDate := some "2025-11-07",
    priority := some "High Priority", notes := none }

theorem c5_three_fields_validated_witness :
    ((some c5Complete : Option ParsedTask) = some c5Complete) ∧
    truthy c5Complete.name = true ∧ truthy c5Complete.assignee = true ∧
    truthy c5Complete.dueDate = true ∧
    handleAddTask [] (some c5Complete) = ([mkHubTask c5Complete], none) :=
  ⟨rfl, by decide, by decide, by decide,
    (c5_three_fields_validated [] (some c5Complete)).2.1 c5Complete rfl
      (by decide) (by decide) (by decide)⟩

/-- Does `pat` occur at the head of `l`? -/
def hasPrefixChars : List Char → List Char → Bool
  | [], _ => true
  | _ :: _, [] => false
  | c :: cs, d :: ds => c == d && hasPrefixChars cs ds

/-- Does `pat` occur anywhere in `l`? -/
def hasSubstrChars (pat : List Char) : List Char → Bool
  | [] => pat.isEmpty
  | c :: rest => hasPrefixChars pat (c :: rest) || hasSubstrChars pat rest

/-- JavaScript `s.includes(pat)`. -/
def strContains (s pat : String) : Bool := hasSubstrChars pat.data s.data

/-- JavaScript `s.toLowerCase()` (over the characters the program
compares, ASCII suffices). -/
def strLower (s : String) : String := ⟨s.data.map Char.toLower⟩

/-- The provider error inspected by the `catch` of `fetchSheetData`:
`err.result?.error?.code` and `err.result?.error?.message`. -/
structure ApiError where
  code : Option Int
  message : String
deriving DecidableEq, Repr

/-- The tab-not-found test of the `catch`:
`err.result?.error?.code === 400 || err.result?.error?.message.includes('Unable to parse range')`. -/
def isTabNotFound (e : ApiError) : Bool :=
  e.code == some 400 || strContains e.message "Unable to parse range"

/-- The generic connection message of `fetchSheetData`. -/
def genericFetchErrorMessage : String :=
  "Could not load project details. Please check your connection and try again."

/-- The error state set by the `catch` of `fetchSheetData` for the
selected task's name. -/
def fetchSheetErrorMessage (taskName : String) (e : ApiError) : String :=
  if isTabNotFound e then
    "Could not find a sheet named \"" ++ taskName ++
      "\". Make sure a tab in your Google Sheet exactly matches the project name."
  else
    genericFetchErrorMessage

/-- C7: when fetching a task's sub-tasks fails with the tab-not-found
condition (provider code 400, or a message containing the range-parse
substring), the error state contains the selected task's name; on every
other failure it is the fixed generic connection message, which does not
depend on (hence does not name) the task. -/
theorem c7_fetch_error_names_task (taskName : String) (e : ApiError) :
    (isTabNotFound e = true →
      ∃ p q, fetchSheetErrorMessage taskName e = p ++ taskName ++ q) ∧
    (isTabNotFound e = false →
      fetchSheetErrorMessage taskName e = genericFetchErrorMessage) ∧
    (isTabNotFound e = false → ∀ other : String,
      fetchSheetErrorMessage taskName e = fetchSheetErrorMessage other e) := by
  refine ⟨?_, ?_, ?_⟩
  · intro h
    refine ⟨"Could not find a sheet named \"",
      "\". Make sure a tab in your Google Sheet exactly matches the project name.", ?_⟩
    rw [fetchSheetErrorMessage, if_pos h]
  · intro h
    rw [fetchSheetErrorMessage, if_neg (by simp [h])]
  · intro h other
    rw [fetchSheetErrorMessage, fetchSheetErrorMessage, if_neg (by simp [h]),
      if_neg (by simp [h])]

theorem c7_fetch_error_names_task_witness :
    (isTabNotFound { code := some 400, message := "" } = true ∧
      ∃ p q, fetchSheetErrorMessage "Chai x Pasty GRWM" { code := some 400, message := "" } =
        p ++ "Chai x Pasty GRWM" ++ q) ∧
    (isTabNotFound { code := some 403, message := "quota exceeded" } = false ∧
      fetchSheetErrorMessage "Chai x Pasty GRWM" { code := some 403, message := "quota exceeded" } =
        genericFetchErrorMessage) :=
  ⟨⟨by decide,
    (c7_fetch_error_names_task "Chai x Pasty GRWM" { code := some 400, message := "" }).1
      (by decide)⟩,
   ⟨by decide,
    (c7_fetch_error_names_task "Chai x Pasty GRWM"
      { code := some 403, message := "quota exceeded" }).2.1 (by decide)⟩⟩

/-- The argument delivered to the Google Identity Services
`error_callback`: either a bare string, or an object with optional
`type`, `error` and `message` properties. -/
inductive GsiError
  | str (s : String)
  | obj (type : Option String) (error : Option String) (message : Option String)
deriving DecidableEq, Repr

/-- `typeof error === 'string' ? error : error?.type || error?.error || ''`. -/
def gsiErrorType : GsiError → String
  | .str s => s
  | .obj t e _ => jsOr (t.getD "") (jsOr (e.getD "") "")

/-- `(typeof error === 'string' ? error : error?.message || '').toLowerCase()`
(a bare string has no `message` property, so the string branch lowercases
the string itself). -/
def gsiErrorMessageText : GsiError → String
  | .str s => strLower s
  | .obj _ _ m => strLower (m.getD "")

/-- The user-cancellation test of the `error_callback`. -/
def isUserCancellation (e : GsiError) : Bool :=
  gsiErrorType e == "popup_closed_by_user" ||
  gsiErrorType e == "popup_closed" ||
  strContains (gsiErrorMessageText e) "popup window closed" ||
  strContains (gsiErrorMessageText e) "popup closed" ||
  strContains (gsiErrorMessageText e) "window closed"

/-- What the `TroubleshootingError` box renders: the error's type and
message and the origin URL the user must authorize. -/
structure TroubleshootingDisplay where
  errType : String
  errMessage : String
  origin : String
deriving DecidableEq, Repr

/-- `error?.type || 'No type'` as rendered by `TroubleshootingError` (a
bare string has no `type` property). -/
def displayType : GsiError → String
  | .str _ => "No type"
  | .obj t _ _ => jsOr (t.getD "") "No type"

/-- `error?.message || 'No message'` as rendered by
`TroubleshootingError`. -/
def displayMessage : GsiError → String
  | .str _ => "No message"
  | .obj _ _ m => jsOr (m.getD "") "No message"

/-- The error state after the `error_callback` runs: `none` when the
callback clears the state and returns (user cancellation), otherwise the
`TroubleshootingError` display it sets. -/
def errorCallbackState (origin : String) (e : GsiError) : Option TroubleshootingDisplay :=
  if isUserCancellation e then none
  else some { errType := displayType e, errMessage := displayMessage e, origin := origin }

/-- C8: an error recognized as user cancellation — one of the two
popup-closed types, or a (lowercased) message containing one of the three
popup/window-closed substrings — clears the error state to `none`, and
every other error sets a diagnostic display carrying the error's type,
its message and the origin URL to authorize; cancellation therefore never
produces a terminal failure display. -/
theorem c8_cancellation_clears_error (origin : String) (e : GsiError) :
    (isUserCancellation e = true ↔
      (gsiErrorType e = "popup_closed_by_user" ∨ gsiErrorType e = "popup_closed" ∨
       strContains (gsiErrorMessageText e) "popup window closed" = true ∨
       strContains (gsiErrorMessageText e) "popup closed" = true ∨
       strContains (gsiErrorMessageText e) "window closed" = true)) ∧
    (isUserCancellation e = true → errorCallbackState origin e = none) ∧
    (isUserCancellation e = false →
      errorCallbackState origin e =
        some { errType := displayType e, errMessage := displayMessage e, origin := origin }) := by
  refine ⟨?_, ?_, ?_⟩
  · rw [isUserCancellation]
    simp [Bool.or_eq_true, beq_iff_eq, or_assoc]
  · intro h
    rw [errorCallbackState, if_pos h]
  · intro h
    rw [errorCallbackState, if_neg (by simp [h])]

theorem c8_cancellation_clears_error_witness :
    (isUserCancellation (.obj (some "popup_closed_by_user") none none) = true ∧
      errorCallbackState "https://example.test" (.obj (some "popup_closed_by_user") none none) =
        none) ∧
    (isUserCancellation (.obj (some "invalid_client") none (some "bad client id")) = false ∧
      errorCallbackState "https://example.test"
        (.obj (some "invalid_client") none (some "bad client id")) =
        some { errType := "invalid_client", errMessage := "bad client id",
               origin := "https://example.test" }) :=
  ⟨⟨by decide,
    (c8_cancellation_clears_error "https://example.test"
      (.obj (some "popup_closed_by_user") none none)).2.1 (by decide)⟩,
   ⟨by decide,
    (c8_cancellation_clears_error "https://example.test"
      (.obj (some "invalid_client") none (some "bad client id"))).2.2 (by decide)⟩⟩

end TrashTV
